import Mathlib

/-!
Verification of the Geometry Dash simulation core
(`src/Game/constants.py`, `src/Game/game.py`, `src/Game/level_generator.py`).

The Python source is shallowly embedded: floats are modelled as exact
rationals (`ℚ`), Python ints as `ℤ`/`ℕ`, `pygame.Rect` as a record of four
integers, and the mutable classes (`Player`, `Spike`, `Block`, `Game`,
`LevelGenerator`) as immutable structures with explicit state passing.
Python's seeded Mersenne-Twister (`random.Random(seed)`) is modelled as a
deterministic stream of naturals: `randint`/`choice` consume successive
stream values and reduce them into the requested range, so every value the
model produces is one the library could produce, and a fixed seed yields a
fixed stream.
-/

set_option maxRecDepth 4000

/-! ## Python numeric helpers -/

/-- Python's `int(x)` on a float: truncation toward zero. -/
def pyInt (q : ℚ) : ℤ := Int.tdiv q.num q.den

/-- Python's `%` on floats with a positive divisor (result has the divisor's sign). -/
def pyMod (a b : ℚ) : ℚ := a - b * ⌊a / b⌋

/-- Python 3's `round` to an integer: nearest, ties to even. -/
def pyRound (q : ℚ) : ℤ :=
  let f := ⌊q⌋
  let r := q - f
  if r < 1 / 2 then f
  else if 1 / 2 < r then f + 1
  else if f % 2 = 0 then f else f + 1

/-! ## Constants (`src/Game/constants.py`) -/

def SCREEN_W : ℤ := 1920
def SCREEN_H : ℤ := 1200
def FPS : ℕ := 60
def BLOCK_SIZE : ℤ := 112
def GROUND_Y : ℤ := SCREEN_H - 3 * BLOCK_SIZE
def SPEED_NORMAL_BPS : ℚ := 1038592002 / 100000000
def GAME_SPEED : ℚ := SPEED_NORMAL_BPS * (BLOCK_SIZE : ℚ)
def PLAYER_SIZE : ℤ := BLOCK_SIZE
def PLAYER_X : ℚ := (13 / 2 : ℚ) * (BLOCK_SIZE : ℚ)
def GRAVITY : ℚ := (876 / 1000 : ℚ) * SPEED_NORMAL_BPS ^ 2 * (BLOCK_SIZE : ℚ)
def JUMP_VEL : ℚ := -((194 / 100 : ℚ) * SPEED_NORMAL_BPS * (BLOCK_SIZE : ℚ))
def HITBOX_MARGIN : ℤ := 3
def SPIKE_W : ℚ := (BLOCK_SIZE : ℚ)
def SPIKE_H : ℚ := (BLOCK_SIZE : ℚ)
def BLOCK_W : ℚ := (BLOCK_SIZE : ℚ)
def BLOCK_H : ℚ := (BLOCK_SIZE : ℚ)
def SPIKE_HITBOX_MARGIN : ℚ := 3 / 10
def SPAWN_X : ℤ := SCREEN_W + 60
def GAP_MIN : ℤ := 280
def GAP_MAX : ℤ := 520
def REWARD_ALIVE : ℚ := 5 / 100
def REWARD_DEATH : ℚ := -10

/-! ## Rectangles (`pygame.Rect` and `Rect.colliderect`) -/

structure Rect where
  x : ℤ
  y : ℤ
  w : ℤ
  h : ℤ
deriving DecidableEq

/-- `pygame.Rect.colliderect`: overlap is strict (shared edges do not collide). -/
def colliderect (a b : Rect) : Bool :=
  decide (a.x < b.x + b.w) && decide (b.x < a.x + a.w) &&
  decide (a.y < b.y + b.h) && decide (b.y < a.y + a.h)

/-! ## Player (`game.py` class `Player`) -/

structure Player where
  x : ℚ
  y : ℚ
  vy : ℚ
  on_ground : Bool
  alive : Bool
  angle : ℚ
deriving DecidableEq

/-- `Player.reset`: the state a fresh or reset player is put into. -/
def Player.initial : Player :=
  { x := PLAYER_X
    y := ((GROUND_Y : ℚ) - (PLAYER_SIZE : ℚ))
    vy := 0
    on_ground := true
    alive := true
    angle := 0 }

/-- `Player.jump`: jump if on the ground, ignored while airborne.
Note: the source does not check `alive`. -/
def Player.jump (p : Player) : Player :=
  if p.on_ground then { p with vy := JUMP_VEL, on_ground := false } else p

/-- `Player.update(dt)`: gravity, integration and ground clamp.
A no-op when the player is not alive. -/
def Player.update (p : Player) (dt : ℚ) : Player :=
  if p.alive then
    let vy := p.vy + GRAVITY * dt
    let y := p.y + vy * dt
    let groundTop : ℚ := (GROUND_Y : ℚ) - (PLAYER_SIZE : ℚ)
    if groundTop ≤ y then
      { p with y := groundTop, vy := 0, on_ground := true, angle := 0 }
    else
      { p with y := y, vy := vy, on_ground := false,
               angle := pyMod (p.angle - 220 * dt) 360 }
  else p

/-- `Player.hitbox`: the cube shrunk by `HITBOX_MARGIN` on all sides. -/
def Player.hitbox (p : Player) : Rect :=
  { x := pyInt p.x + HITBOX_MARGIN
    y := pyInt p.y + HITBOX_MARGIN
    w := PLAYER_SIZE - 2 * HITBOX_MARGIN
    h := PLAYER_SIZE - 2 * HITBOX_MARGIN }

/-! ## Obstacles (`game.py` classes `Spike` and `Block`) -/

/-- The `kind` tag distinguishing the two obstacle classes. -/
inductive ObKind where
  | spike
  | block
deriving DecidableEq

/-- A live obstacle of the simulation. `Spike.__init__` sets
`w = SPIKE_W, h = SPIKE_H`; `Block.__init__` sets `w = BLOCK_W, h = BLOCK_H`. -/
structure Obstacle where
  kind : ObKind
  x : ℚ
  w : ℚ
  h : ℚ
deriving DecidableEq

/-- `Spike.update` / `Block.update`: scroll left by `dx`. -/
def Obstacle.scroll (o : Obstacle) (dx : ℚ) : Obstacle := { o with x := o.x - dx }

/-- `Spike.offscreen` / `Block.offscreen`: fully off the left edge. -/
def Obstacle.offscreen (o : Obstacle) : Bool := decide (o.x + o.w < 0)

/-- `Spike.hitbox` (inner kill zone, 30% trimmed from each side) and
`Block.hitbox` (full rectangle). -/
def Obstacle.hitbox (o : Obstacle) : Rect :=
  match o.kind with
  | .spike =>
      let marginPx := pyInt (o.w * SPIKE_HITBOX_MARGIN)
      { x := pyInt o.x + marginPx
        y := pyInt ((GROUND_Y : ℚ) - o.h)
        w := pyInt (o.w - 2 * (marginPx : ℚ))
        h := pyInt o.h }
  | .block =>
      { x := pyInt o.x
        y := pyInt ((GROUND_Y : ℚ) - o.h)
        w := pyInt o.w
        h := pyInt o.h }

/-- Screen y of a Block's top surface (`GROUND_Y - h`), the "top surface"
the spec's landing rule refers to. -/
def Obstacle.topY (o : Obstacle) : ℚ := (GROUND_Y : ℚ) - o.h

/-! ## Random stream model -/

/-- Model of `random.Random`: a deterministic stream of naturals plus a
cursor. Each draw consumes one stream value. -/
structure Rng where
  stream : Nat → Nat
  idx : Nat

/-- Consume one raw stream value. -/
def Rng.next (r : Rng) : Nat × Rng := (r.stream r.idx, ⟨r.stream, r.idx + 1⟩)

/-- `random.Random.randint(lo, hi)`: an arbitrary stream value reduced into
`[lo, hi]` (both ends included). -/
def randint (lo hi : ℤ) (r : Rng) : ℤ × Rng :=
  let n := r.next
  (lo + (n.1 : ℤ) % (hi - lo + 1), n.2)

/-- Model of the fixed pseudo-random generator behind a seed: a linear
congruential step standing in for the Mersenne Twister, so that one seed
determines one stream. -/
def seedStream (seed : ℤ) : Nat → Nat :=
  fun i => (1103515245 * (seed.natAbs + i) + 12345) % 2147483648

/-- `random.Random(seed)`. -/
def Rng.ofSeed (seed : ℤ) : Rng := ⟨seedStream seed, 0⟩

/-! ## Collision check (`Game._check_collision`) -/

/-- The boolean result of `Game._check_collision`: does the player hitbox
overlap any obstacle hitbox? The source iterates in list order and stops at
the first overlap. -/
def checkCollision (p : Player) (obs : List Obstacle) : Bool :=
  obs.any (fun o => colliderect p.hitbox o.hitbox)

/-- The state mutation `Game._check_collision` performs on the player:
`alive` is set to `False` on any overlap, nothing else is touched. -/
def collidePlayer (p : Player) (obs : List Obstacle) : Player :=
  if checkCollision p obs then { p with alive := false } else p

/-! ## The Game (`game.py` class `Game`) -/

/-- State of one `Game` instance (rendering fields omitted; they never touch
simulation state). -/
structure Game where
  player : Player
  obstacles : List Obstacle
  scroll_x : ℚ
  step_n : ℕ
  next_x : ℚ
  rng : Rng

/-- `Game._add_obstacle`: draw a kind (`choice` over three spikes and one
block, modelled as stream value mod 4) and append the obstacle. -/
def mkObstacle (r : Rng) (x : ℚ) : Obstacle × Rng :=
  let n := r.next
  let kind := if n.1 % 4 = 3 then ObKind.block else ObKind.spike
  ({ kind := kind, x := x,
     w := match kind with | .spike => SPIKE_W | .block => BLOCK_W,
     h := match kind with | .spike => SPIKE_H | .block => BLOCK_H }, n.2)

/-- The spawn threshold `C.SCREEN_W + C.GAP_MAX` of `Game._maybe_spawn`. -/
def spawnThreshold : ℚ := (SCREEN_W : ℚ) + (GAP_MAX : ℚ)

/-- Fuel that makes the `while` loop of `Game._maybe_spawn` structurally
recursive: the loop advances `next_x` by at least `GAP_MIN = 280 ≥ 1` per
iteration, so `⌈threshold - (next_x - scroll_x)⌉` iterations always reach
the exit condition; with this fuel the fuel-out branch coincides with the
loop's exit condition (`spawnLoopF_exit`). -/
def spawnFuel (scroll next : ℚ) : ℕ := (⌈spawnThreshold - (next - scroll)⌉).toNat

/-- The `while` loop of `Game._maybe_spawn`: spawn at
`next_x - scroll_x + PLAYER_X`, then advance `next_x` by a random gap, until
`next_x - scroll_x` reaches the threshold. Returns the new
`(next_x, rng, obstacles)`. -/
def spawnLoopF : ℕ → ℚ → ℚ → Rng → List Obstacle → ℚ × Rng × List Obstacle
  | 0, _, next, r, obs => (next, r, obs)
  | fuel + 1, scroll, next, r, obs =>
    if next - scroll < spawnThreshold then
      let m := mkObstacle r (next - scroll + PLAYER_X)
      let gr := randint GAP_MIN GAP_MAX m.2
      spawnLoopF fuel scroll (next + (gr.1 : ℚ)) gr.2 (obs ++ [m.1])
    else (next, r, obs)

/-- `Game._maybe_spawn`. -/
def Game.maybeSpawn (g : Game) : Game :=
  let sp := spawnLoopF (spawnFuel g.scroll_x g.next_x) g.scroll_x g.next_x g.rng g.obstacles
  { g with next_x := sp.1, rng := sp.2.1, obstacles := sp.2.2 }

/-- The loop of `Game._spawn_initial`: 8 times, advance the cursor by a
random gap and place an obstacle there. Returns `(rng, obstacles, cursor)`. -/
def spawnInitialLoop : ℕ → Rng → List Obstacle → ℚ → Rng × List Obstacle × ℚ
  | 0, r, obs, x => (r, obs, x)
  | k + 1, r, obs, x =>
    let gr := randint GAP_MIN GAP_MAX r
    let x1 := x + (gr.1 : ℚ)
    let m := mkObstacle gr.2 x1
    spawnInitialLoop k m.2 (obs ++ [m.1]) x1

/-- `Game.__init__` (headless) followed by `Game._spawn_initial`: the state a
procedural-mode episode starts in. -/
def Game.init (stream : Nat → Nat) : Game :=
  let s := spawnInitialLoop 8 ⟨stream, 0⟩ [] ((SPAWN_X : ℚ))
  let gr := randint GAP_MIN GAP_MAX s.1
  { player := Player.initial
    obstacles := s.2.1
    scroll_x := 0
    step_n := 0
    next_x := s.2.2 + (gr.1 : ℚ)
    rng := gr.2 }

/-- Step 3 of `Game.step`: every obstacle scrolled left by `dx`. -/
def Game.scrolled (g : Game) (dx : ℚ) : List Obstacle :=
  g.obstacles.map (fun o => o.scroll dx)

/-- Steps 3–4 of `Game.step`: scroll, then drop obstacles that are
`offscreen`. -/
def Game.culled (g : Game) (dx : ℚ) : List Obstacle :=
  (g.scrolled dx).filter (fun o => !o.offscreen)

/-- `Game.step(action, dt)`: apply action, integrate physics, scroll, cull,
spawn, resolve collisions, compute reward and done flag. -/
def Game.step (g : Game) (action : ℤ) (dt : ℚ) : Game × ℚ × Bool :=
  let p0 := if action = 1 then g.player.jump else g.player
  let p1 := p0.update dt
  let dx := GAME_SPEED * dt
  let scroll := g.scroll_x + dx
  let obs := g.culled dx
  let sp := spawnLoopF (spawnFuel scroll g.next_x) scroll g.next_x g.rng obs
  let dead := checkCollision p1 sp.2.2
  ({ player := collidePlayer p1 sp.2.2
     obstacles := sp.2.2
     scroll_x := scroll
     step_n := g.step_n + 1
     next_x := sp.1
     rng := sp.2.1 },
   if dead then REWARD_DEATH else REWARD_ALIVE, dead)

/-- Repeated `Game.step` at the default timestep `dt = 1 / FPS = 1/60`,
with the action for tick `i` drawn from `acts i`. -/
def Game.run (g : Game) (acts : ℕ → ℤ) : ℕ → Game
  | 0 => g
  | n + 1 => ((g.run acts n).step (acts n) (1 / 60)).1

/-! ## Level generator (`src/Game/level_generator.py`) -/

/-- An obstacle descriptor dict as emitted by the generator:
`{"type", "x", "y", "w", "h"}`. -/
structure ObstacleDesc where
  kind : ObKind
  x : ℚ
  y : ℚ
  w : ℚ
  h : ℚ
deriving DecidableEq

/-- `_spike(x)`: one spike sitting on the ground. -/
def mkSpikeD (x : ℚ) : ObstacleDesc :=
  { kind := .spike, x := x, y := (GROUND_Y : ℚ) - SPIKE_H, w := SPIKE_W, h := SPIKE_H }

/-- `_block(x, stack)`: a column of `stack` blocks, bottom to top. -/
def blockColD (x : ℚ) (stack : ℕ) : List ObstacleDesc :=
  (List.range stack).map (fun i =>
    { kind := .block, x := x, y := (GROUND_Y : ℚ) - BLOCK_H * ((i : ℚ) + 1),
      w := BLOCK_W, h := BLOCK_H })

/-- One block unit in pixels, the generator's `B = C.BLOCK_SIZE`. -/
def Bq : ℚ := (BLOCK_SIZE : ℚ)

/-- Names for the thirteen chunk constructors of the generator (the source
stores the functions themselves in the pools; the interpretation is
`chunkObjs` / `chunkWidth`). -/
inductive ChunkId where
  | singleSpike
  | doubleSpike
  | tripleSpike
  | singleBlockWall
  | doubleBlockWall
  | blockPlatform
  | spikeOnBlock
  | platformWithSpikeEnds
  | staircaseUp
  | staircaseDown
  | alternatingSpikes
  | spikeThenPlatform
  | spikeCluster
deriving DecidableEq

/-- The obstacle list each chunk constructor returns at a starting `x`,
in the order the source appends them. -/
def chunkObjs : ChunkId → ℚ → List ObstacleDesc
  | .singleSpike, x => [mkSpikeD x]
  | .doubleSpike, x => [mkSpikeD x, mkSpikeD (x + Bq)]
  | .tripleSpike, x => [mkSpikeD x, mkSpikeD (x + Bq), mkSpikeD (x + 2 * Bq)]
  | .singleBlockWall, x =>
      blockColD x 1 ++ blockColD (x + Bq) 1 ++ blockColD (x + 2 * Bq) 1
  | .doubleBlockWall, x => blockColD x 2 ++ blockColD (x + Bq) 2
  | .blockPlatform, x =>
      blockColD x 1 ++ blockColD (x + Bq) 1 ++ blockColD (x + 2 * Bq) 1 ++
      blockColD (x + 3 * Bq) 1 ++ blockColD (x + 4 * Bq) 1
  | .spikeOnBlock, x =>
      blockColD x 1 ++ blockColD (x + Bq) 1 ++ blockColD (x + 2 * Bq) 1 ++
      [{ kind := .spike, x := x + Bq, y := (GROUND_Y : ℚ) - BLOCK_H - SPIKE_H,
         w := SPIKE_W, h := SPIKE_H }]
  | .platformWithSpikeEnds, x =>
      [mkSpikeD x] ++ blockColD (x + Bq) 1 ++ blockColD (x + 2 * Bq) 1 ++
      blockColD (x + 3 * Bq) 1 ++ [mkSpikeD (x + 4 * Bq)]
  | .staircaseUp, x =>
      blockColD x 1 ++ blockColD (x + Bq) 1 ++ blockColD (x + 2 * Bq) 1 ++
      blockColD (x + 3 * Bq) 2 ++ blockColD (x + 4 * Bq) 2 ++ blockColD (x + 5 * Bq) 2 ++
      blockColD (x + 6 * Bq) 3 ++ blockColD (x + 7 * Bq) 3 ++ blockColD (x + 8 * Bq) 3
  | .staircaseDown, x =>
      blockColD x 3 ++ blockColD (x + Bq) 3 ++ blockColD (x + 2 * Bq) 3 ++
      blockColD (x + 3 * Bq) 2 ++ blockColD (x + 4 * Bq) 2 ++ blockColD (x + 5 * Bq) 2 ++
      blockColD (x + 6 * Bq) 1 ++ blockColD (x + 7 * Bq) 1 ++ blockColD (x + 8 * Bq) 1
  | .alternatingSpikes, x => [mkSpikeD x, mkSpikeD (x + 4 * Bq), mkSpikeD (x + 8 * Bq)]
  | .spikeThenPlatform, x =>
      [mkSpikeD x] ++ blockColD (x + 4 * Bq) 1 ++ blockColD (x + 5 * Bq) 1 ++
      blockColD (x + 6 * Bq) 1
  | .spikeCluster, x =>
      [mkSpikeD x, mkSpikeD (x + Bq), mkSpikeD (x + 5 * Bq), mkSpikeD (x + 6 * Bq)]

/-- The width each chunk constructor reports (a whole number of block
units, independent of `x`). -/
def chunkWidth : ChunkId → ℤ
  | .singleSpike => BLOCK_SIZE
  | .doubleSpike => 2 * BLOCK_SIZE
  | .tripleSpike => 3 * BLOCK_SIZE
  | .singleBlockWall => 3 * BLOCK_SIZE
  | .doubleBlockWall => 2 * BLOCK_SIZE
  | .blockPlatform => 5 * BLOCK_SIZE
  | .spikeOnBlock => 3 * BLOCK_SIZE
  | .platformWithSpikeEnds => 5 * BLOCK_SIZE
  | .staircaseUp => 9 * BLOCK_SIZE
  | .staircaseDown => 9 * BLOCK_SIZE
  | .alternatingSpikes => 9 * BLOCK_SIZE
  | .spikeThenPlatform => 7 * BLOCK_SIZE
  | .spikeCluster => 7 * BLOCK_SIZE

/-- `POOL_1` … `POOL_5` and the `POOLS` table. Difficulties outside 1–5
default to `POOL_1`; the constructor assertion makes them unreachable. -/
def pools (difficulty : ℤ) : List (ChunkId × ℕ) :=
  if difficulty = 1 then
    [(.singleSpike, 40), (.doubleSpike, 20), (.singleBlockWall, 20),
     (.blockPlatform, 15), (.staircaseUp, 5)]
  else if difficulty = 2 then
    [(.singleSpike, 15), (.doubleSpike, 30), (.singleBlockWall, 15),
     (.spikeOnBlock, 20), (.staircaseUp, 10), (.alternatingSpikes, 10)]
  else if difficulty = 3 then
    [(.doubleSpike, 15), (.tripleSpike, 25), (.spikeOnBlock, 15),
     (.platformWithSpikeEnds, 15), (.spikeThenPlatform, 15),
     (.alternatingSpikes, 10), (.doubleBlockWall, 5)]
  else if difficulty = 4 then
    [(.tripleSpike, 30), (.doubleSpike, 10), (.spikeOnBlock, 15),
     (.spikeCluster, 20), (.platformWithSpikeEnds, 10),
     (.staircaseDown, 10), (.doubleBlockWall, 5)]
  else if difficulty = 5 then
    [(.tripleSpike, 25), (.spikeCluster, 25), (.spikeOnBlock, 15),
     (.platformWithSpikeEnds, 15), (.alternatingSpikes, 10), (.staircaseDown, 10)]
  else
    [(.singleSpike, 40), (.doubleSpike, 20), (.singleBlockWall, 20),
     (.blockPlatform, 15), (.staircaseUp, 5)]

/-- The `GAPS` table: (min, max) inter-chunk gap per difficulty; out-of-range
difficulties default to the difficulty-1 pair (unreachable, see `pools`). -/
def gapsOf (difficulty : ℤ) : ℤ × ℤ :=
  if difficulty = 1 then (360, 540)
  else if difficulty = 2 then (270, 420)
  else if difficulty = 3 then (180, 300)
  else if difficulty = 4 then (150, 240)
  else if difficulty = 5 then (120, 180)
  else (360, 540)

/-- The cumulative-weight walk of `LevelGenerator._weighted_choice`: return
the first entry whose cumulative weight reaches the draw `d`. -/
def walkPool : List (ChunkId × ℕ) → ℤ → ℤ → Option ChunkId
  | [], _, _ => none
  | (c, w) :: rest, d, cum =>
    let cum1 := cum + (w : ℤ)
    if d ≤ cum1 then some c else walkPool rest d cum1

/-- `LevelGenerator._weighted_choice`: draw `randint(1, total)` and walk the
pool; the `fns[-1]` fallback is modelled by `getLast?`. -/
def weightedChoice (pool : List (ChunkId × ℕ)) (r : Rng) : ChunkId × Rng :=
  let total : ℤ := ((pool.map Prod.snd).sum : ℕ)
  let dr := randint 1 total r
  ((walkPool pool dr.1 0).getD (((pool.getLast?).map Prod.fst).getD .singleSpike), dr.2)

/-- The per-position difficulty of `LevelGenerator.generate`: either the
target difficulty, or (progressive mode) a linear ramp over the first 70%
of the level, rounded with Python's banker's rounding. -/
def curDiff (difficulty : ℤ) (progressive : Bool) (length : ℤ) (x : ℚ) : ℤ :=
  if progressive then
    let progress := min ((x - (SCREEN_W : ℚ)) / (length : ℚ)) 1
    let ramp := min (progress / (7 / 10)) 1
    max 1 (pyRound (1 + ramp * ((difficulty : ℚ) - 1)))
  else difficulty

/-- Fuel for the generation loop: the cursor advances by at least
`chunkWidth + gap ≥ 232 ≥ 1` per iteration, so
`⌈length + SCREEN_W - x⌉` iterations always reach the exit condition;
with this fuel the fuel-out branch coincides with the loop's exit test. -/
def genFuel (length : ℤ) (x : ℚ) : ℕ := (⌈(length : ℚ) + (SCREEN_W : ℚ) - x⌉).toNat

/-- The `while x < length + C.SCREEN_W` loop of `LevelGenerator.generate`:
pick a chunk by weighted choice, append its obstacles, advance by the chunk
width plus a random gap. -/
def genLoopF (difficulty : ℤ) (progressive : Bool) (length : ℤ) :
    ℕ → ℚ → Rng → List ObstacleDesc → List ObstacleDesc × Rng
  | 0, _, r, acc => (acc, r)
  | fuel + 1, x, r, acc =>
    if x < (length : ℚ) + (SCREEN_W : ℚ) then
      let cur := curDiff difficulty progressive length x
      let cr := weightedChoice (pools cur) r
      let objs := chunkObjs cr.1 x
      let x1 := x + (chunkWidth cr.1 : ℚ)
      let gb := gapsOf cur
      let gr := randint gb.1 gb.2 cr.2
      genLoopF difficulty progressive length fuel (x1 + (gr.1 : ℚ)) gr.2 (acc ++ objs)
    else (acc, r)

/-- Comparison used for the final `obstacles.sort(key=lambda o: o["x"])`. -/
def descLe (a b : ObstacleDesc) : Prop := a.x ≤ b.x

instance : DecidableRel descLe := fun a b => inferInstanceAs (Decidable (a.x ≤ b.x))

instance : IsTotal ObstacleDesc descLe := ⟨fun a b => le_total a.x b.x⟩

instance : IsTrans ObstacleDesc descLe := ⟨fun _ _ _ h1 h2 => le_trans h1 h2⟩

/-- A `LevelGenerator` instance after a successful `__init__`. -/
structure LevelGenerator where
  difficulty : ℤ
  progressive : Bool
  rng : Rng

/-- The failure raised by the `assert 1 <= difficulty <= 5` in
`LevelGenerator.__init__`. -/
inductive GenError where
  | invalidDifficulty
deriving DecidableEq

/-- `LevelGenerator.__init__(difficulty, seed, progressive)`: the assertion
rejects difficulties outside 1–5; otherwise the difficulty is stored as
given (never clamped) and the rng is seeded. -/
def LevelGenerator.init (difficulty : ℤ) (seed : ℤ) (progressive : Bool) :
    Except GenError LevelGenerator :=
  if 1 ≤ difficulty ∧ difficulty ≤ 5 then
    Except.ok { difficulty := difficulty, progressive := progressive, rng := Rng.ofSeed seed }
  else Except.error GenError.invalidDifficulty

/-- `LevelGenerator.generate(length)`: run the generation loop from the
start offset `SCREEN_W + GAME_SPEED * 1.5`, then sort ascending by `x`
(Python's stable `list.sort` modelled by the stable `insertionSort`). -/
def LevelGenerator.generate (gen : LevelGenerator) (length : ℤ) : List ObstacleDesc :=
  let start : ℚ := (SCREEN_W : ℚ) + GAME_SPEED * (3 / 2)
  let res := genLoopF gen.difficulty gen.progressive length (genFuel length start) start gen.rng []
  List.insertionSort descLe res.1

/-! ## Fixed-level mode (modelled from the spec)

`Game.load_level` is called from `level_generator.main`
(`src/Game/level_generator.py`, preview entry point) and named in the
generator's docstrings, but the method itself does not exist in
`src/Game/game.py`; the class there has no fixed-level mode. The interface
is therefore modelled from the spec (§4.4 and §6). -/

/-- Modelled from the spec: the state of a `Game` that also supports
fixed-level mode. The live obstacles are kept as full descriptors (the
generator's output carries per-obstacle `y` for stacked blocks, which the
`src/` obstacle classes cannot represent). -/
structure FGame where
  obstacles : List ObstacleDesc
  scroll_x : ℚ
  next_x : ℚ
  rng : Rng
  fixed_level : Bool

/-- Modelled from the spec: scroll every descriptor left by `dx` and drop
those fully off the left edge ("the manager only scrolls and culls"). -/
def scrollCullD (obs : List ObstacleDesc) (dx : ℚ) : List ObstacleDesc :=
  (obs.map (fun o => { o with x := o.x - dx })).filter (fun o => !(decide (o.x + o.w < 0)))

/-- Modelled from the spec: procedural spawning for descriptor obstacles,
mirroring `Game._maybe_spawn` (used only when `fixed_level` is off). -/
def spawnLoopD : ℕ → ℚ → ℚ → Rng → List ObstacleDesc → ℚ × Rng × List ObstacleDesc
  | 0, _, next, r, obs => (next, r, obs)
  | fuel + 1, scroll, next, r, obs =>
    if next - scroll < spawnThreshold then
      let m := mkObstacle r (next - scroll + PLAYER_X)
      let d : ObstacleDesc :=
        { kind := m.1.kind, x := m.1.x, y := (GROUND_Y : ℚ) - m.1.h, w := m.1.w, h := m.1.h }
      let gr := randint GAP_MIN GAP_MAX m.2
      spawnLoopD fuel scroll (next + (gr.1 : ℚ)) gr.2 (obs ++ [d])
    else (next, r, obs)

/-- Modelled from the spec: `Game.load_level(obstacles)` — install a
pre-sorted descriptor list wholesale, restart the scroll, and switch the
instance into fixed-level mode. -/
def FGame.loadLevel (g : FGame) (descs : List ObstacleDesc) : FGame :=
  { g with obstacles := descs, scroll_x := 0, fixed_level := true }

/-- Modelled from the spec: one obstacle-manager tick. In fixed-level mode
only scroll and cull; in procedural mode also spawn to keep the lookahead
buffer full. -/
def FGame.fstep (g : FGame) (dt : ℚ) : FGame :=
  let dx := GAME_SPEED * dt
  let obs := scrollCullD g.obstacles dx
  if g.fixed_level then
    { g with obstacles := obs, scroll_x := g.scroll_x + dx }
  else
    let scroll := g.scroll_x + dx
    let sp := spawnLoopD (spawnFuel scroll g.next_x) scroll g.next_x g.rng obs
    { obstacles := sp.2.2, scroll_x := scroll, next_x := sp.1, rng := sp.2.1,
      fixed_level := false }

/-- Modelled from the spec: `n` obstacle-manager ticks. -/
def FGame.fstepN (g : FGame) (dt : ℚ) : ℕ → FGame
  | 0 => g
  | n + 1 => (g.fstepN dt n).fstep dt

/-! ## Concrete scenario inputs and claim-level notions -/

/-- Iterated `Player.update` at the default timestep `dt = 1/60`. -/
def tickIter : ℕ → Player → Player
  | 0, p => p
  | k + 1, p => tickIter k (p.update (1 / 60))

/-- The spec's continuous closed-form trajectory
`y(t) = y0 + v*t + (1/2)*g*t^2` with `y0` the resting top of the player,
`v = JUMP_VEL` and `g = GRAVITY` (screen coordinates grow downward, so the
same signs as the engine's). -/
def projectileY (t : ℚ) : ℚ :=
  ((GROUND_Y : ℚ) - (PLAYER_SIZE : ℚ)) + JUMP_VEL * t + (1 / 2) * GRAVITY * t ^ 2

/-- World scroll per default tick, `GAME_SPEED * (1/60)`. -/
def dxQ : ℚ := GAME_SPEED * (1 / 60)

/-- An admissible random stream: the first eight inter-obstacle gaps reduce
to `GAP_MIN = 280`, the ninth to `GAP_MAX = 520` (stream index 16 is the
ninth `randint` of `_spawn_initial`; the odd indices are the `choice`
draws, all spikes). -/
def ceStream : Nat → Nat := fun i => if i = 16 then 240 else 0

/-- The obstacle set `Game.init ceStream` produces, scrolled left by `t`
pixels: eight spikes initially at `SPAWN_X + 280 * k` for `k = 1..8`. -/
def ceObs (t : ℚ) : List Obstacle :=
  [⟨.spike, 2260 - t, 112, 112⟩, ⟨.spike, 2540 - t, 112, 112⟩,
   ⟨.spike, 2820 - t, 112, 112⟩, ⟨.spike, 3100 - t, 112, 112⟩,
   ⟨.spike, 3380 - t, 112, 112⟩, ⟨.spike, 3660 - t, 112, 112⟩,
   ⟨.spike, 3940 - t, 112, 112⟩, ⟨.spike, 4220 - t, 112, 112⟩]

/-- The spawn-manager invariant maintained by every step: the spawn cursor
sits at least `SCREEN_W + GAP_MAX` ahead of the scroll, some live obstacle
is within `GAP_MAX` of the cursor, and widths are non-negative. -/
def GInv (g : Game) : Prop :=
  spawnThreshold ≤ g.next_x - g.scroll_x ∧
  (∃ o ∈ g.obstacles, g.next_x - g.scroll_x - (GAP_MAX : ℚ) ≤ o.x) ∧
  ∀ o ∈ g.obstacles, (0 : ℚ) ≤ o.w

/-- A falling player whose hitbox overlaps the block `oC1` while all of the
spec's safe-landing conditions hold (`vy ≥ 0`, previous-frame bottom above
the block top plus the 8 px margin). -/
def pC1 : Player := ⟨728, 645, 100, false, true, 0⟩

/-- A ground block whose hitbox the falling player `pC1` overlaps from
above. -/
def oC1 : Obstacle := ⟨.block, 750, 112, 112⟩

/-- A game state whose player is already dead (mid-air death pose), with
the spawn cursor far enough out that no spawn triggers on the next step. -/
def gC5 : Game :=
  { player := ⟨728, 645, 100, false, false, 0⟩
    obstacles := []
    scroll_x := 0
    step_n := 0
    next_x := 10000
    rng := ⟨fun _ => 0, 0⟩ }

/-- A game state holding one obstacle that scrolls fully off the left edge
during the next tick. -/
def gC7 : Game :=
  { player := Player.initial
    obstacles := [⟨.spike, -300, 112, 112⟩]
    scroll_x := 0
    step_n := 0
    next_x := 5000
    rng := ⟨fun _ => 0, 0⟩ }

/-- The obstacle of `gC7` after the tick's scroll: fully off screen. -/
def oC7 : Obstacle := ⟨.spike, -300 - GAME_SPEED * (1 / 60), 112, 112⟩

/-- A dead player resting on the ground (death on a ground-level hazard),
used to exercise `step` with the jump action after `done`. -/
def gC10 : Game :=
  { player := ⟨728, 752, 0, true, false, 0⟩
    obstacles := []
    scroll_x := 0
    step_n := 0
    next_x := 10000
    rng := ⟨fun _ => 0, 0⟩ }

/-- The generator instance `LevelGenerator(difficulty=1, seed=42)`. -/
def genC3 : LevelGenerator := ⟨1, false, Rng.ofSeed 42⟩

/-! ## Helper lemmas -/

attribute [local semireducible] Rat.add Rat.mul Rat.inv Rat.sub Rat.ofScientific

theorem randint_bounds (lo hi : ℤ) (r : Rng) (h : lo ≤ hi) :
    lo ≤ (randint lo hi r).1 ∧ (randint lo hi r).1 ≤ hi := by
  unfold randint Rng.next
  have h1 : 0 ≤ ((r.stream r.idx : ℤ)) % (hi - lo + 1) :=
    Int.emod_nonneg _ (by omega)
  have h2 : ((r.stream r.idx : ℤ)) % (hi - lo + 1) < hi - lo + 1 :=
    Int.emod_lt_of_pos _ (by omega)
  constructor <;> simp <;> omega

theorem Player.update_dead (p : Player) (dt : ℚ) (h : p.alive = false) :
    p.update dt = p := by
  simp [Player.update, h]

theorem Player.set_alive_false_self (p : Player) (h : p.alive = false) :
    ({ p with alive := false } : Player) = p := by
  cases p
  simp_all

theorem collidePlayer_y (p : Player) (obs : List Obstacle) :
    (collidePlayer p obs).y = p.y := by
  unfold collidePlayer
  split <;> rfl

theorem collidePlayer_vy (p : Player) (obs : List Obstacle) :
    (collidePlayer p obs).vy = p.vy := by
  unfold collidePlayer
  split <;> rfl

theorem collidePlayer_on_ground (p : Player) (obs : List Obstacle) :
    (collidePlayer p obs).on_ground = p.on_ground := by
  unfold collidePlayer
  split <;> rfl

theorem collidePlayer_alive_of_dead (p : Player) (obs : List Obstacle)
    (h : p.alive = false) : (collidePlayer p obs).alive = false := by
  unfold collidePlayer
  split
  · rfl
  · exact h

theorem collidePlayer_of_dead (p : Player) (obs : List Obstacle)
    (h : p.alive = false) : collidePlayer p obs = p := by
  unfold collidePlayer
  split
  · exact Player.set_alive_false_self p h
  · rfl

theorem Game.step_player_eq (g : Game) (a : ℤ) (dt : ℚ) :
    (g.step a dt).1.player
      = collidePlayer ((if a = 1 then g.player.jump else g.player).update dt)
          (g.step a dt).1.obstacles := rfl

/-! ## C1 — collision resolution and platform landings -/

/-- C1, counterexample. The claim says that when the player overlaps a Block
with non-negative vertical velocity and a previous-frame bottom edge at or
above the block top plus the 8 px margin, the overlap is resolved as a safe
landing (y snapped onto the top surface, velocity zeroed, grounded set). In
the code `Game._check_collision` treats a Block like a hazard: here all the
safe-landing conditions hold (overlap, `vy = 100 ≥ 0`, previous bottom
`700 ≤ topY + 8 = 760`), yet the player is killed, `y` stays `645` instead
of being snapped to `topY - PLAYER_SIZE = 640`, and `vy` is not zeroed. -/
theorem c1_counterexample :
    oC1.kind = ObKind.block
  ∧ colliderect pC1.hitbox oC1.hitbox = true
  ∧ (0 : ℚ) ≤ pC1.vy
  ∧ (700 : ℚ) ≤ oC1.topY + 8
  ∧ checkCollision pC1 [oC1] = true
  ∧ (collidePlayer pC1 [oC1]).alive = false
  ∧ (collidePlayer pC1 [oC1]).y = 645
  ∧ ¬(collidePlayer pC1 [oC1]).y = oC1.topY - (PLAYER_SIZE : ℚ)
  ∧ ¬(collidePlayer pC1 [oC1]).vy = 0 := by
  decide

/-- C1, amended: `Game._check_collision` does not distinguish platforms from
hazards. Any overlap between the player hitbox and any obstacle hitbox
(Block or Spike alike) kills the player; there is no safe-landing branch,
no snapping of `y`, no zeroing of `vy`, no grounding, and no
previous-frame-bottom tracking anywhere in the class. -/
theorem c1_amended (p : Player) (obs : List Obstacle)
    (h : ∃ o ∈ obs, colliderect p.hitbox o.hitbox = true) :
    checkCollision p obs = true
  ∧ (collidePlayer p obs).alive = false
  ∧ (collidePlayer p obs).y = p.y
  ∧ (collidePlayer p obs).vy = p.vy
  ∧ (collidePlayer p obs).on_ground = p.on_ground := by
  have hc : checkCollision p obs = true := by
    rcases h with ⟨o, ho, hco⟩
    exact List.any_eq_true.mpr ⟨o, ho, hco⟩
  refine ⟨hc, ?_, ?_, ?_, ?_⟩ <;> simp [collidePlayer, hc]

/-- C1, witness for the amended theorem at the concrete overlap `pC1`/`oC1`. -/
theorem c1_amended_witness :
    checkCollision pC1 [oC1] = true
  ∧ (collidePlayer pC1 [oC1]).alive = false
  ∧ (collidePlayer pC1 [oC1]).y = pC1.y
  ∧ (collidePlayer pC1 [oC1]).vy = pC1.vy
  ∧ (collidePlayer pC1 [oC1]).on_ground = pC1.on_ground :=
  c1_amended pC1 [oC1] ⟨oC1, by decide, by decide⟩

/-! ## C3 — determinism of generation -/

/-- C3: `generate` invoked on two generators constructed with identical
difficulty, seed and progressive flag yields identical obstacle lists for
every length — the generator state is a pure function of its constructor
arguments and the seeded stream. -/
theorem c3_generate_deterministic (length difficulty seed : ℤ) (progressive : Bool)
    (g1 g2 : LevelGenerator)
    (h1 : LevelGenerator.init difficulty seed progressive = Except.ok g1)
    (h2 : LevelGenerator.init difficulty seed progressive = Except.ok g2) :
    g1.generate length = g2.generate length := by
  rw [h1] at h2
  cases h2
  rfl

/-- C3, witness at difficulty 1, seed 42. -/
theorem c3_generate_deterministic_witness :
    genC3.generate 0 = genC3.generate 0 :=
  c3_generate_deterministic 0 1 42 false genC3 genC3 rfl rfl

/-! ## C4 — jump trajectory versus closed-form projectile motion -/

/-- C4, counterexample. After one jump and ten default ticks the engine's
semi-implicit Euler y differs from the spec's closed form
`y0 + v*t + (1/2)*g*t^2` at `t = 10/60` by exactly `GRAVITY / 720`, which is
between 14 and 15 pixels — a half-step integration offset far beyond any
floating-point tolerance (the player is still airborne, so the comparison is
"before landing"). -/
theorem c4_counterexample :
    (tickIter 10 (Player.initial.jump)).y - projectileY ((10 : ℚ) / 60) = GRAVITY / 720
  ∧ (14 : ℚ) < GRAVITY / 720
  ∧ GRAVITY / 720 < 15
  ∧ (tickIter 10 (Player.initial.jump)).on_ground = false := by
  decide

/-- C4, amended: the y-sequence follows the exact discrete closed form of
semi-implicit Euler, `y k = y0 + v*(k*dt) + g*dt^2*k*(k+1)/2` (with
`dt = 1/60`, so `g*dt^2/2 = GRAVITY/7200`) — the continuous projectile
formula plus a half-step offset `g*t*dt/2` — and the velocity follows
`v + g*k*dt`, while the player stays airborne for all ten ticks. -/
theorem c4_amended : ∀ k : ℕ, k ≤ 10 →
    ((tickIter k (Player.initial.jump)).y
      = ((GROUND_Y : ℚ) - (PLAYER_SIZE : ℚ)) + JUMP_VEL * ((k : ℚ) / 60)
        + GRAVITY * ((k : ℚ) * ((k : ℚ) + 1)) / 7200)
  ∧ (tickIter k (Player.initial.jump)).vy = JUMP_VEL + GRAVITY * ((k : ℚ) / 60)
  ∧ (tickIter k (Player.initial.jump)).on_ground = false := by
  decide

/-- C4, witness for the amended theorem at the tenth tick. -/
theorem c4_amended_witness :
    ((tickIter 10 (Player.initial.jump)).y
      = ((GROUND_Y : ℚ) - (PLAYER_SIZE : ℚ)) + JUMP_VEL * (((10 : ℕ) : ℚ) / 60)
        + GRAVITY * (((10 : ℕ) : ℚ) * (((10 : ℕ) : ℚ) + 1)) / 7200)
  ∧ (tickIter 10 (Player.initial.jump)).vy = JUMP_VEL + GRAVITY * (((10 : ℕ) : ℚ) / 60)
  ∧ (tickIter 10 (Player.initial.jump)).on_ground = false :=
  c4_amended 10 (by decide)

/-! ## C5 — stepping after death -/

/-- C5, counterexample. The claim says `step` on a dead state either raises
or leaves the entire simulation state unchanged. The embedded `Game.step`
is a total function with no error path, and on the dead state `gC5` it
changes the state: the step counter increments and the scroll distance
advances. -/
theorem c5_counterexample :
    gC5.player.alive = false
  ∧ (gC5.step 0 (1 / 60)).1.step_n ≠ gC5.step_n
  ∧ (gC5.step 0 (1 / 60)).1.scroll_x ≠ gC5.scroll_x := by
  decide

/-- C5, amended: `step` after death neither raises nor is a no-op. The
player is frozen (with a no-op action the whole `Player` record is
unchanged, because `Player.update` returns early when not alive and
re-killing an already dead player changes nothing), but the step counter
increments and the world keeps scrolling. -/
theorem c5_amended (g : Game) (dt : ℚ) (h : g.player.alive = false) :
    (g.step 0 dt).1.player = g.player
  ∧ (g.step 0 dt).1.step_n = g.step_n + 1
  ∧ (g.step 0 dt).1.scroll_x = g.scroll_x + GAME_SPEED * dt := by
  refine ⟨?_, rfl, rfl⟩
  rw [Game.step_player_eq,
      show (if (0 : ℤ) = 1 then g.player.jump else g.player) = g.player from if_neg (by decide),
      Player.update_dead g.player dt h, collidePlayer_of_dead g.player _ h]

/-- C5, witness for the amended theorem on the dead state `gC5`. -/
theorem c5_amended_witness :
    (gC5.step 0 (1 / 60)).1.player = gC5.player
  ∧ (gC5.step 0 (1 / 60)).1.step_n = gC5.step_n + 1
  ∧ (gC5.step 0 (1 / 60)).1.scroll_x = gC5.scroll_x + GAME_SPEED * (1 / 60) :=
  c5_amended gC5 (1 / 60) rfl

/-! ## C8 — difficulty validation -/

/-- C8: `LevelGenerator.__init__` accepts exactly the difficulties 1–5. In
range, construction succeeds and stores the difficulty unchanged (never
clamped); out of range, construction fails with the assertion error. -/
theorem c8_difficulty_validation (difficulty seed : ℤ) (progressive : Bool) :
    (1 ≤ difficulty ∧ difficulty ≤ 5 →
      LevelGenerator.init difficulty seed progressive
        = Except.ok ⟨difficulty, progressive, Rng.ofSeed seed⟩)
  ∧ (¬(1 ≤ difficulty ∧ difficulty ≤ 5) →
      LevelGenerator.init difficulty seed progressive
        = Except.error GenError.invalidDifficulty) := by
  constructor <;> intro h <;> simp [LevelGenerator.init, h]

/-- C8, witness: difficulty 3 is accepted as-is, difficulty 7 is rejected. -/
theorem c8_difficulty_validation_witness :
    LevelGenerator.init 3 9 false = Except.ok ⟨3, false, Rng.ofSeed 9⟩
  ∧ LevelGenerator.init 7 0 false = Except.error GenError.invalidDifficulty :=
  ⟨(c8_difficulty_validation 3 9 false).1 (by decide),
   (c8_difficulty_validation 7 0 false).2 (by decide)⟩

/-! ## C9 — generator output sorted by x -/

/-- C9: for every generator instance (hence every length, difficulty and
seed) the obstacle list returned by `generate` is non-decreasing in `x` —
the final `obstacles.sort(key=lambda o: o["x"])` establishes it. -/
theorem c9_generate_sorted (gen : LevelGenerator) (length : ℤ) :
    List.Pairwise (fun a b : ObstacleDesc => a.x ≤ b.x) (gen.generate length) :=
  List.sorted_insertionSort descLe _

/-! ## C10 — the jump action ignores the alive flag -/

/-- C10: on a dead, grounded player, `step` with action 1 leaves `y`
unchanged (the physics update is a no-op when dead) but still writes the
jump impulse into `vy` and clears `on_ground`, because `Player.jump` never
checks `alive`; the player stays dead. -/
theorem c10_dead_jump (g : Game) (dt : ℚ)
    (ha : g.player.alive = false) (hg : g.player.on_ground = true) :
    (g.step 1 dt).1.player.y = g.player.y
  ∧ (g.step 1 dt).1.player.vy = JUMP_VEL
  ∧ (g.step 1 dt).1.player.on_ground = false
  ∧ (g.step 1 dt).1.player.alive = false := by
  have hjump : g.player.jump = { g.player with vy := JUMP_VEL, on_ground := false } := by
    simp [Player.jump, hg]
  rw [Game.step_player_eq,
      show (if (1 : ℤ) = 1 then g.player.jump else g.player) = g.player.jump from if_pos rfl,
      hjump, Player.update_dead { g.player with vy := JUMP_VEL, on_ground := false } dt ha]
  exact ⟨collidePlayer_y _ _, collidePlayer_vy _ _, collidePlayer_on_ground _ _,
    collidePlayer_alive_of_dead _ _ ha⟩

/-- C10, witness on the concrete dead grounded state `gC10`. -/
theorem c10_dead_jump_witness :
    (gC10.step 1 (1 / 60)).1.player.y = gC10.player.y
  ∧ (gC10.step 1 (1 / 60)).1.player.vy = JUMP_VEL
  ∧ (gC10.step 1 (1 / 60)).1.player.on_ground = false
  ∧ (gC10.step 1 (1 / 60)).1.player.alive = false :=
  c10_dead_jump gC10 (1 / 60) rfl rfl

/-! ## C2 — level loading and fixed-level mode (spec-modelled) -/

theorem FGame.fstep_fixed (g : FGame) (dt : ℚ) (h : g.fixed_level = true) :
    (g.fstep dt).fixed_level = true
  ∧ (g.fstep dt).obstacles = scrollCullD g.obstacles (GAME_SPEED * dt) := by
  constructor <;> simp [FGame.fstep, h]

/-- C2 (modelled from the spec, `Game.load_level` being absent from `src/`):
`loadLevel` installs the descriptor list wholesale and switches the instance
into fixed-level mode; the mode persists over every subsequent tick, and in
it each tick's obstacle set is exactly the previous one scrolled and culled
— procedural spawning contributes nothing for the rest of the episode. -/
theorem c2_load_level (g : FGame) (descs : List ObstacleDesc) (dt : ℚ) (n : ℕ) :
    (g.loadLevel descs).fixed_level = true
  ∧ (g.loadLevel descs).obstacles = descs
  ∧ ((g.loadLevel descs).fstepN dt n).fixed_level = true
  ∧ ((g.loadLevel descs).fstepN dt (n + 1)).obstacles
      = scrollCullD (((g.loadLevel descs).fstepN dt n).obstacles) (GAME_SPEED * dt) := by
  have hfix : ∀ m : ℕ, ((g.loadLevel descs).fstepN dt m).fixed_level = true := by
    intro m
    induction m with
    | zero => rfl
    | succ m ih => exact (FGame.fstep_fixed _ dt ih).1
  exact ⟨rfl, rfl, hfix n, (FGame.fstep_fixed _ dt (hfix n)).2⟩

/-! ## C7 — culling of off-screen obstacles -/

theorem mkObstacle_x (r : Rng) (x : ℚ) : (mkObstacle r x).1.x = x := rfl

theorem mkObstacle_w (r : Rng) (x : ℚ) : (mkObstacle r x).1.w = (BLOCK_SIZE : ℚ) := by
  unfold mkObstacle
  by_cases hc : r.next.1 % 4 = 3 <;> simp [hc, SPIKE_W, BLOCK_W]

theorem spawnLoopF_mem (fuel : ℕ) :
    ∀ (scroll next : ℚ) (r : Rng) (obs : List Obstacle) (o : Obstacle),
      o ∈ (spawnLoopF fuel scroll next r obs).2.2 →
      o ∈ obs ∨ ((0 : ℚ) ≤ o.w ∧ next - scroll + PLAYER_X ≤ o.x) := by
  induction fuel with
  | zero => exact fun scroll next r obs o h => Or.inl h
  | succ fuel ih =>
    intro scroll next r obs o h
    by_cases hc : next - scroll < spawnThreshold
    · simp only [spawnLoopF, if_pos hc] at h
      have hgap := randint_bounds GAP_MIN GAP_MAX (mkObstacle r (next - scroll + PLAYER_X)).2
        (by norm_num [GAP_MIN, GAP_MAX])
      rcases ih _ _ _ _ o h with h1 | h2
      · rcases List.mem_append.mp h1 with h3 | h4
        · exact Or.inl h3
        · right
          rw [List.mem_singleton] at h4
          subst h4
          refine ⟨?_, ?_⟩
          · rw [mkObstacle_w]
            norm_num [BLOCK_SIZE]
          · rw [mkObstacle_x]
      · right
        refine ⟨h2.1, ?_⟩
        have hg0 : (0 : ℚ) ≤ ((randint GAP_MIN GAP_MAX (mkObstacle r (next - scroll + PLAYER_X)).2).1 : ℚ) := by
          have := hgap.1
          norm_num [GAP_MIN] at this ⊢
          exact_mod_cast le_trans (by norm_num) this
        have := h2.2
        linarith
    · simp only [spawnLoopF, if_neg hc] at h
      exact Or.inl h

/-- C7: an obstacle whose right edge `x + w` has scrolled strictly past
`x = 0` during a tick is culled before the collision pass and is absent from
the post-step obstacle set — `Game.step` culls directly after scrolling and
`_check_collision` iterates exactly over the post-cull (plus freshly
spawned) list, so the obstacle is never consulted. The hypothesis
`0 ≤ next_x - scroll_x` (the spawn cursor has not scrolled past the left
edge, true in every reachable state) rules out degenerate spawns at negative
coordinates. -/
theorem c7_culled (g : Game) (a : ℤ) (o : Obstacle)
    (hcur : 0 ≤ g.next_x - g.scroll_x)
    (hmem : o ∈ g.scrolled (GAME_SPEED * (1 / 60)))
    (hoff : o.x + o.w < 0) :
    o ∉ (g.step a (1 / 60)).1.obstacles := by
  intro habs
  have hobs : (g.step a (1 / 60)).1.obstacles
      = (spawnLoopF (spawnFuel (g.scroll_x + GAME_SPEED * (1 / 60)) g.next_x)
          (g.scroll_x + GAME_SPEED * (1 / 60)) g.next_x g.rng
          (g.culled (GAME_SPEED * (1 / 60)))).2.2 := rfl
  rw [hobs] at habs
  rcases spawnLoopF_mem _ _ _ _ _ o habs with h1 | h2
  · have hkeep := (List.mem_filter.mp h1).2
    simp only [Obstacle.offscreen, Bool.not_eq_eq_eq_not, Bool.not_true, decide_eq_false_iff_not,
      not_lt] at hkeep
    linarith
  · have hdx : GAME_SPEED * (1 / 60) ≤ 20 := by
      norm_num [GAME_SPEED, SPEED_NORMAL_BPS, BLOCK_SIZE]
    have hPX : PLAYER_X = 728 := by norm_num [PLAYER_X, BLOCK_SIZE]
    rcases h2 with ⟨hw, hx⟩
    rw [hPX] at hx
    linarith

/-- C7, witness: the single obstacle of `gC7` scrolls fully off screen in
the tick and is gone from the post-step set. -/
theorem c7_culled_witness :
    (0 : ℚ) ≤ gC7.next_x - gC7.scroll_x
  ∧ oC7 ∈ gC7.scrolled (GAME_SPEED * (1 / 60))
  ∧ oC7.x + oC7.w < 0
  ∧ oC7 ∉ (gC7.step 0 (1 / 60)).1.obstacles :=
  ⟨by decide, by decide, by decide, c7_culled gC7 0 oC7 (by decide) (by decide) (by decide)⟩

/-! ## C6 — spawn lookahead -/

theorem Game.step_scroll_eq (g : Game) (a : ℤ) (dt : ℚ) :
    (g.step a dt).1.scroll_x = g.scroll_x + GAME_SPEED * dt := rfl

theorem Game.step_next_eq (g : Game) (a : ℤ) (dt : ℚ) :
    (g.step a dt).1.next_x
      = (spawnLoopF (spawnFuel (g.scroll_x + GAME_SPEED * dt) g.next_x)
          (g.scroll_x + GAME_SPEED * dt) g.next_x g.rng (g.culled (GAME_SPEED * dt))).1 := rfl

theorem Game.step_obstacles_eq (g : Game) (a : ℤ) (dt : ℚ) :
    (g.step a dt).1.obstacles
      = (spawnLoopF (spawnFuel (g.scroll_x + GAME_SPEED * dt) g.next_x)
          (g.scroll_x + GAME_SPEED * dt) g.next_x g.rng (g.culled (GAME_SPEED * dt))).2.2 := rfl

theorem spawnFuel_zero (scroll next : ℚ) (h : spawnThreshold ≤ next - scroll) :
    spawnFuel scroll next = 0 := by
  unfold spawnFuel
  rw [Int.toNat_eq_zero]
  refine Int.ceil_le.mpr ?_
  push_cast
  linarith

theorem step_noSpawn (g : Game) (a : ℤ) (dt : ℚ)
    (h1 : spawnThreshold ≤ g.next_x - (g.scroll_x + GAME_SPEED * dt))
    (h2 : ∀ o ∈ g.obstacles, (0 : ℚ) ≤ o.x - GAME_SPEED * dt + o.w) :
    (g.step a dt).1.obstacles = g.obstacles.map (fun o => o.scroll (GAME_SPEED * dt))
  ∧ (g.step a dt).1.scroll_x = g.scroll_x + GAME_SPEED * dt
  ∧ (g.step a dt).1.next_x = g.next_x := by
  have hfuel : spawnFuel (g.scroll_x + GAME_SPEED * dt) g.next_x = 0 := spawnFuel_zero _ _ h1
  have hcull : g.culled (GAME_SPEED * dt) = g.scrolled (GAME_SPEED * dt) := by
    apply List.filter_eq_self.mpr
    intro o ho
    obtain ⟨o', ho', rfl⟩ := List.mem_map.mp ho
    simp only [Obstacle.offscreen, Obstacle.scroll, Bool.not_eq_eq_eq_not, Bool.not_true,
      decide_eq_false_iff_not, not_lt]
    have := h2 o' ho'
    linarith
  refine ⟨?_, rfl, ?_⟩
  · rw [Game.step_obstacles_eq, hfuel, hcull]
    rfl
  · rw [Game.step_next_eq, hfuel]
    rfl

theorem ceObs_scroll (t s : ℚ) :
    (ceObs t).map (fun o => o.scroll s) = ceObs (t + s) := by
  simp only [ceObs, Obstacle.scroll, List.map_cons, List.map_nil]
  norm_num
  refine ⟨by ring, by ring, by ring, by ring, by ring, by ring, by ring, by ring⟩

theorem c6_state (n : ℕ) : n ≤ 95 →
    ((Game.init ceStream).run (fun _ => 0) n).obstacles = ceObs ((n : ℚ) * dxQ)
  ∧ ((Game.init ceStream).run (fun _ => 0) n).scroll_x = (n : ℚ) * dxQ
  ∧ ((Game.init ceStream).run (fun _ => 0) n).next_x = 4740 := by
  induction n with
  | zero =>
    intro _
    refine ⟨?_, ?_, ?_⟩ <;> decide
  | succ n ih =>
    intro hn
    obtain ⟨hobs, hscroll, hnext⟩ := ih (le_trans (Nat.le_succ n) hn)
    have hdx : GAME_SPEED * (1 / 60) = dxQ := rfl
    have hb : ((n : ℚ) + 1) * dxQ ≤ 2300 := by
      have hn95 : ((n : ℚ) + 1) ≤ 95 := by
        have : (n : ℚ) + 1 = ((n + 1 : ℕ) : ℚ) := by push_cast; ring
        rw [this]
        exact_mod_cast hn
      have hdx95 : (95 : ℚ) * dxQ ≤ 2300 := by
        norm_num [dxQ, GAME_SPEED, SPEED_NORMAL_BPS, BLOCK_SIZE]
      have hdxpos : (0 : ℚ) ≤ dxQ := by
        norm_num [dxQ, GAME_SPEED, SPEED_NORMAL_BPS, BLOCK_SIZE]
      calc ((n : ℚ) + 1) * dxQ ≤ 95 * dxQ := by
            exact mul_le_mul_of_nonneg_right hn95 hdxpos
        _ ≤ 2300 := hdx95
    have hth : spawnThreshold = 2440 := by norm_num [spawnThreshold, SCREEN_W, GAP_MAX]
    have hstep := step_noSpawn ((Game.init ceStream).run (fun _ => 0) n) 0 (1 / 60)
      (by rw [hnext, hscroll, hdx, hth]; linarith)
      (by
        rw [hobs]
        intro o ho
        rw [hdx]
        simp only [ceObs, List.mem_cons, List.not_mem_nil, or_false] at ho
        rcases ho with rfl | rfl | rfl | rfl | rfl | rfl | rfl | rfl <;> simp <;> linarith)
    have hrun : (Game.init ceStream).run (fun _ => 0) (n + 1)
        = (((Game.init ceStream).run (fun _ => 0) n).step 0 (1 / 60)).1 := rfl
    refine ⟨?_, ?_, ?_⟩
    · rw [hrun, hstep.1, hobs, hdx, ceObs_scroll]
      have : (n : ℚ) * dxQ + dxQ = ((n : ℚ) + 1) * dxQ := by ring
      rw [this]
      push_cast
      ring_nf
    · rw [hrun, hstep.2.1, hscroll, hdx]
      push_cast
      ring
    · rw [hrun, hstep.2.2, hnext]

/-- C6, counterexample. The claim asserts that after every step in
procedural mode the rightmost live obstacle sits past
`SCREEN_W + GAP_MAX`. With the admissible stream `ceStream` (initial gaps
at `GAP_MIN`, ninth gap at `GAP_MAX`) and 95 no-op ticks, the spawn cursor
is still beyond the threshold so `_maybe_spawn` never fires, and every live
obstacle — the rightmost included — has `x ≤ SCREEN_W + GAP_MAX`
(the rightmost is at `4220 - 95 * dxQ ≈ 2378 < 2440`). -/
theorem c6_counterexample :
    ¬ ∀ (stream : Nat → Nat) (acts : ℕ → ℤ) (n : ℕ),
        ∃ o ∈ ((Game.init stream).run acts n).obstacles, spawnThreshold < o.x := by
  intro hclaim
  obtain ⟨o, hmem, hgt⟩ := hclaim ceStream (fun _ => 0) 95
  obtain ⟨hobs, -, -⟩ := c6_state 95 (le_refl 95)
  rw [hobs] at hmem
  have h95 : (1780 : ℚ) ≤ 95 * dxQ := by
    norm_num [dxQ, GAME_SPEED, SPEED_NORMAL_BPS, BLOCK_SIZE]
  have hth : spawnThreshold = 2440 := by norm_num [spawnThreshold, SCREEN_W, GAP_MAX]
  rw [hth] at hgt
  simp only [ceObs, List.mem_cons, List.not_mem_nil, or_false] at hmem
  rcases hmem with rfl | rfl | rfl | rfl | rfl | rfl | rfl | rfl <;> simp at hgt <;> linarith

theorem spawnLoopF_post (fuel : ℕ) :
    ∀ (scroll next : ℚ) (r : Rng) (obs : List Obstacle),
      (⌈spawnThreshold - (next - scroll)⌉.toNat ≤ fuel) →
      spawnThreshold ≤ (spawnLoopF fuel scroll next r obs).1 - scroll := by
  induction fuel with
  | zero =>
    intro scroll next r obs h
    have h0 : ⌈spawnThreshold - (next - scroll)⌉ ≤ 0 := by omega
    have h1 := Int.ceil_le.mp h0
    push_cast at h1
    simp only [spawnLoopF]
    linarith
  | succ fuel ih =>
    intro scroll next r obs h
    by_cases hc : next - scroll < spawnThreshold
    · simp only [spawnLoopF, if_pos hc]
      apply ih
      have hgap := randint_bounds GAP_MIN GAP_MAX (mkObstacle r (next - scroll + PLAYER_X)).2
        (by norm_num [GAP_MIN, GAP_MAX])
      have hgap1 : (280 : ℤ) ≤ (randint GAP_MIN GAP_MAX (mkObstacle r (next - scroll + PLAYER_X)).2).1 := by
        have := hgap.1
        norm_num [GAP_MIN] at this
        exact this
      have hceil : ⌈spawnThreshold -
            (next + ((randint GAP_MIN GAP_MAX (mkObstacle r (next - scroll + PLAYER_X)).2).1 : ℚ)
              - scroll)⌉
          = ⌈spawnThreshold - (next - scroll)⌉
            - (randint GAP_MIN GAP_MAX (mkObstacle r (next - scroll + PLAYER_X)).2).1 := by
        rw [show spawnThreshold -
              (next + ((randint GAP_MIN GAP_MAX (mkObstacle r (next - scroll + PLAYER_X)).2).1 : ℚ)
                - scroll)
            = (spawnThreshold - (next - scroll))
              - ((randint GAP_MIN GAP_MAX (mkObstacle r (next - scroll + PLAYER_X)).2).1 : ℚ)
          from by ring]
        exact Int.ceil_sub_int _ _
      have hpos : 1 ≤ ⌈spawnThreshold - (next - scroll)⌉ :=
        Int.ceil_pos.mpr (by linarith)
      rw [hceil]
      omega
    · simp only [spawnLoopF, if_neg hc]
      linarith [not_lt.mp hc]

theorem spawnLoopF_J (fuel : ℕ) :
    ∀ (scroll next : ℚ) (r : Rng) (obs : List Obstacle),
      (∃ o ∈ obs, next - scroll - (GAP_MAX : ℚ) ≤ o.x) →
      ∃ o ∈ (spawnLoopF fuel scroll next r obs).2.2,
        (spawnLoopF fuel scroll next r obs).1 - scroll - (GAP_MAX : ℚ) ≤ o.x := by
  induction fuel with
  | zero =>
    intro scroll next r obs h
    simpa [spawnLoopF] using h
  | succ fuel ih =>
    intro scroll next r obs h
    by_cases hc : next - scroll < spawnThreshold
    · simp only [spawnLoopF, if_pos hc]
      apply ih
      refine ⟨(mkObstacle r (next - scroll + PLAYER_X)).1,
        List.mem_append.mpr (Or.inr (List.mem_singleton.mpr rfl)), ?_⟩
      rw [mkObstacle_x]
      have hgap := randint_bounds GAP_MIN GAP_MAX (mkObstacle r (next - scroll + PLAYER_X)).2
        (by norm_num [GAP_MIN, GAP_MAX])
      have hgap2 : ((randint GAP_MIN GAP_MAX (mkObstacle r (next - scroll + PLAYER_X)).2).1 : ℚ)
          ≤ 520 := by
        have := hgap.2
        norm_num [GAP_MAX] at this
        exact_mod_cast this
      have hPX : PLAYER_X = 728 := by norm_num [PLAYER_X, BLOCK_SIZE]
      have hGM : ((GAP_MAX : ℤ) : ℚ) = 520 := by norm_num [GAP_MAX]
      linarith [hgap2, hPX, hGM]
    · simp only [spawnLoopF, if_neg hc]
      exact h

theorem spawnInitialLoop_spec (k : ℕ) :
    ∀ (r : Rng) (obs : List Obstacle) (x : ℚ),
      (x + 280 * (k : ℚ) ≤ (spawnInitialLoop k r obs x).2.2)
    ∧ (∀ o ∈ (spawnInitialLoop k r obs x).2.1, o ∈ obs ∨ (0 : ℚ) ≤ o.w)
    ∧ (1 ≤ k → ∃ o ∈ (spawnInitialLoop k r obs x).2.1,
        o.x = (spawnInitialLoop k r obs x).2.2 ∧ (0 : ℚ) ≤ o.w) := by
  induction k with
  | zero =>
    intro r obs x
    refine ⟨by norm_num [spawnInitialLoop], fun o ho => Or.inl ho, fun h => absurd h (by omega)⟩
  | succ k ih =>
    intro r obs x
    have hgap := randint_bounds GAP_MIN GAP_MAX r (by norm_num [GAP_MIN, GAP_MAX])
    have hgap1 : (280 : ℚ) ≤ ((randint GAP_MIN GAP_MAX r).1 : ℚ) := by
      have := hgap.1
      norm_num [GAP_MIN] at this
      exact_mod_cast this
    have hw : (0 : ℚ) ≤ (mkObstacle (randint GAP_MIN GAP_MAX r).2
        (x + ((randint GAP_MIN GAP_MAX r).1 : ℚ))).1.w := by
      rw [mkObstacle_w]
      norm_num [BLOCK_SIZE]
    obtain ⟨ihb, ihw, ihwit⟩ := ih (mkObstacle (randint GAP_MIN GAP_MAX r).2
        (x + ((randint GAP_MIN GAP_MAX r).1 : ℚ))).2
      (obs ++ [(mkObstacle (randint GAP_MIN GAP_MAX r).2
        (x + ((randint GAP_MIN GAP_MAX r).1 : ℚ))).1])
      (x + ((randint GAP_MIN GAP_MAX r).1 : ℚ))
    refine ⟨?_, ?_, ?_⟩
    · simp only [spawnInitialLoop]
      push_cast
      linarith
    · simp only [spawnInitialLoop]
      intro o ho
      rcases ihw o ho with h1 | h2
      · rcases List.mem_append.mp h1 with h3 | h4
        · exact Or.inl h3
        · rw [List.mem_singleton] at h4
          subst h4
          exact Or.inr hw
      · exact Or.inr h2
    · intro _
      rcases k with _ | j
      · refine ⟨(mkObstacle (randint GAP_MIN GAP_MAX r).2
            (x + ((randint GAP_MIN GAP_MAX r).1 : ℚ))).1, ?_, ?_, hw⟩
        · simp [spawnInitialLoop]
        · simp only [spawnInitialLoop]
          exact mkObstacle_x _ _
      · obtain ⟨o, ho, hox, how⟩ := ihwit (by omega)
        exact ⟨o, ho, hox, how⟩

theorem init_GInv (stream : Nat → Nat) : GInv (Game.init stream) := by
  obtain ⟨hb, hw, hwit⟩ := spawnInitialLoop_spec 8 ⟨stream, 0⟩ [] ((SPAWN_X : ℤ) : ℚ)
  obtain ⟨o, ho, hox, how⟩ := hwit (by omega)
  have hgap := randint_bounds GAP_MIN GAP_MAX (spawnInitialLoop 8 ⟨stream, 0⟩ [] ((SPAWN_X : ℤ) : ℚ)).1
    (by norm_num [GAP_MIN, GAP_MAX])
  have hgap1 : (280 : ℚ)
      ≤ ((randint GAP_MIN GAP_MAX (spawnInitialLoop 8 ⟨stream, 0⟩ [] ((SPAWN_X : ℤ) : ℚ)).1).1 : ℚ) := by
    have := hgap.1
    norm_num [GAP_MIN] at this
    exact_mod_cast this
  have hgap2 : ((randint GAP_MIN GAP_MAX (spawnInitialLoop 8 ⟨stream, 0⟩ [] ((SPAWN_X : ℤ) : ℚ)).1).1 : ℚ)
      ≤ 520 := by
    have := hgap.2
    norm_num [GAP_MAX] at this
    exact_mod_cast this
  have hSX : ((SPAWN_X : ℤ) : ℚ) = 1980 := by norm_num [SPAWN_X, SCREEN_W]
  have hth : spawnThreshold = 2440 := by norm_num [spawnThreshold, SCREEN_W, GAP_MAX]
  have hGM : ((GAP_MAX : ℤ) : ℚ) = 520 := by norm_num [GAP_MAX]
  refine ⟨?_, ⟨o, ho, ?_⟩, ?_⟩
  · show spawnThreshold ≤
      ((spawnInitialLoop 8 ⟨stream, 0⟩ [] ((SPAWN_X : ℤ) : ℚ)).2.2
        + ((randint GAP_MIN GAP_MAX (spawnInitialLoop 8 ⟨stream, 0⟩ [] ((SPAWN_X : ℤ) : ℚ)).1).1 : ℚ))
      - 0
    push_cast at hb
    linarith [hb, hgap1, hSX, hth]
  · show ((spawnInitialLoop 8 ⟨stream, 0⟩ [] ((SPAWN_X : ℤ) : ℚ)).2.2
        + ((randint GAP_MIN GAP_MAX (spawnInitialLoop 8 ⟨stream, 0⟩ [] ((SPAWN_X : ℤ) : ℚ)).1).1 : ℚ))
      - 0 - (GAP_MAX : ℚ) ≤ o.x
    rw [hox]
    linarith [hgap2, hGM]
  · intro o' ho'
    rcases hw o' ho' with h1 | h2
    · exact absurd h1 (List.not_mem_nil o')
    · exact h2

theorem step_GInv (g : Game) (a : ℤ) (h : GInv g) : GInv (g.step a (1 / 60)).1 := by
  obtain ⟨hcur, ⟨o₀, ho₀, hJ⟩, hW⟩ := h
  have hth : spawnThreshold = 2440 := by norm_num [spawnThreshold, SCREEN_W, GAP_MAX]
  have hGM : ((GAP_MAX : ℤ) : ℚ) = 520 := by norm_num [GAP_MAX]
  have hdx1 : (0 : ℚ) < GAME_SPEED * (1 / 60) := by
    norm_num [GAME_SPEED, SPEED_NORMAL_BPS, BLOCK_SIZE]
  have hdx2 : GAME_SPEED * (1 / 60) ≤ 20 := by
    norm_num [GAME_SPEED, SPEED_NORMAL_BPS, BLOCK_SIZE]
  have hw₀ := hW o₀ ho₀
  have hsc : (o₀.scroll (GAME_SPEED * (1 / 60))) ∈ g.culled (GAME_SPEED * (1 / 60)) := by
    apply List.mem_filter.mpr
    refine ⟨List.mem_map_of_mem _ ho₀, ?_⟩
    simp only [Obstacle.offscreen, Obstacle.scroll, Bool.not_eq_eq_eq_not, Bool.not_true,
      decide_eq_false_iff_not, not_lt]
    rw [hth] at hcur
    rw [hGM] at hJ
    linarith
  have hpre : ∃ o ∈ g.culled (GAME_SPEED * (1 / 60)),
      g.next_x - (g.scroll_x + GAME_SPEED * (1 / 60)) - (GAP_MAX : ℚ) ≤ o.x := by
    refine ⟨o₀.scroll (GAME_SPEED * (1 / 60)), hsc, ?_⟩
    simp only [Obstacle.scroll]
    linarith
  refine ⟨?_, ?_, ?_⟩
  · rw [Game.step_next_eq, Game.step_scroll_eq]
    exact spawnLoopF_post _ _ _ _ _ (le_of_eq rfl)
  · rw [Game.step_obstacles_eq, Game.step_next_eq, Game.step_scroll_eq]
    exact spawnLoopF_J _ _ _ _ _ hpre
  · rw [Game.step_obstacles_eq]
    intro o ho
    rcases spawnLoopF_mem _ _ _ _ _ o ho with h1 | h2
    · obtain ⟨o', ho', rfl⟩ := List.mem_map.mp (List.mem_filter.mp h1).1
      exact hW o' ho'
    · exact h2.1

/-- C6, amended: after every step in procedural mode (any admissible random
stream, any action sequence, default timestep) the spawn cursor
`next_x - scroll_x` is at least `SCREEN_W + GAP_MAX` — a new obstacle is
queued before the lookahead empties — and some live obstacle sits at or past
`SCREEN_W` (one full screen ahead). The rightmost obstacle itself is not
guaranteed to exceed `SCREEN_W + GAP_MAX` (see the counterexample): only
the cursor is. -/
theorem c6_amended (stream : Nat → Nat) (acts : ℕ → ℤ) (n : ℕ) :
    spawnThreshold
      ≤ ((Game.init stream).run acts n).next_x - ((Game.init stream).run acts n).scroll_x
  ∧ ∃ o ∈ ((Game.init stream).run acts n).obstacles, (SCREEN_W : ℚ) ≤ o.x := by
  have hInv : GInv ((Game.init stream).run acts n) := by
    induction n with
    | zero => exact init_GInv stream
    | succ n ih => exact step_GInv _ _ ih
  obtain ⟨hcur, ⟨o, ho, hx⟩, -⟩ := hInv
  have hth : spawnThreshold = 2440 := by norm_num [spawnThreshold, SCREEN_W, GAP_MAX]
  have hGM : ((GAP_MAX : ℤ) : ℚ) = 520 := by norm_num [GAP_MAX]
  have hSW : ((SCREEN_W : ℤ) : ℚ) = 1920 := by norm_num [SCREEN_W]
  refine ⟨hcur, ⟨o, ho, ?_⟩⟩
  rw [hSW]
  rw [hth] at hcur
  rw [hGM] at hx
  linarith
